import Mathlib

/-!
Verification of the feature-extraction pipeline of the lol-counter-quiz
repository.  The Python sources are shallowly embedded: JSON objects become
structures with optional fields, Python dicts become association lists or
partial maps, the event-scan loops become folds over event lists, and the
per-team counter dictionaries become records of integer counters.

Embedded sources:
  - augment_objectives.py : objective aggregator (compute_features)
  - augment_more.py       : windowed economy extractor (pick_frame,
                            sum_team_from_frame) and ward counter (count_wards)
  - build_dataset.py      : team snapshot extractor (get_frame,
                            extract_team_snapshot) and between-team deltas
  - the pandas left merge used by both augment scripts (left_join)
-/

namespace LolQuiz

/-- Millisecond cutoff 8 minutes (augment_more.py CUT8). -/
def CUT8 : Int := 8 * 60 * 1000

/-- Millisecond cutoff 10 minutes (CUT10 in both augment scripts). -/
def CUT10 : Int := 10 * 60 * 1000

/-- Millisecond cutoff 12 minutes (augment_more.py CUT12). -/
def CUT12 : Int := 12 * 60 * 1000

/-- Millisecond cutoff 14 minutes (augment_objectives.py CUT14). -/
def CUT14 : Int := 14 * 60 * 1000

/-- Millisecond cutoff 15 minutes (CUT15 in both augment scripts). -/
def CUT15 : Int := 15 * 60 * 1000

/-- A timeline event.  Each field mirrors one key read by the Python code via
ev.get; a key that may be absent in the JSON is an Option.  The
assistingParticipantIds list models ev.get with the or-empty-list default. -/
structure Event where
  timestamp : Option Int := none
  type : Option String := none
  killerId : Option Int := none
  victimId : Option Int := none
  assistingParticipantIds : List Int := []
  buildingType : Option String := none
  monsterType : Option String := none
  killerTeamId : Option Int := none
  creatorId : Option Int := none
  wardType : Option String := none
deriving Repr, DecidableEq

/-- A participant-frame snapshot (one value of the participantFrames mapping).
Fields mirror the keys read by build_dataset.py and augment_more.py. -/
structure PFrame where
  totalGold : Option Int := none
  xp : Option Int := none
  level : Option Int := none
  minionsKilled : Option Int := none
  jungleMinionsKilled : Option Int := none
  currentGold : Option Int := none
deriving Repr, DecidableEq

/-- A timeline frame.  The participantFrames dict maps participant-id keys to
snapshots; the Python keys are decimal strings of the integer ids and every
lookup converts through str/int, so the mapping is modelled directly on the
integer ids as an association list. -/
structure Frame where
  timestamp : Option Int := none
  events : List Event := []
  participantFrames : List (Int × PFrame) := []
deriving Repr, DecidableEq

/-- The participant-to-team dict (get_participant_team_map output) modelled as
a partial map from participant id to team id. -/
def PidMap := Int → Option Int

/-- team_from_pid of both augment scripts: a missing id resolves to no team,
otherwise the dict lookup decides. -/
def team_from_pid (pid : Option Int) (pid2team : PidMap) : Option Int :=
  match pid with
  | none => none
  | some p => pid2team p

/-- The per-team counter dict of compute_features (augment_objectives.py,
base[team] for one team). -/
structure TeamCounts where
  k10 : Int := 0
  d10 : Int := 0
  a10 : Int := 0
  k15 : Int := 0
  d15 : Int := 0
  a15 : Int := 0
  plates14 : Int := 0
  towers15 : Int := 0
  drakes15 : Int := 0
  herald15 : Int := 0
deriving Repr, DecidableEq

/-- The two-slot counter dict base of compute_features. -/
structure Counts where
  c100 : TeamCounts := {}
  c200 : TeamCounts := {}
deriving Repr, DecidableEq

/-- update_counts of augment_objectives.py: a team outside 100/200 (including
an unresolved one) is ignored, otherwise the given field update is applied to
that team's slot.  The Python field-name/increment pair is modelled as the
update function f. -/
def update_counts (counts : Counts) (team : Option Int) (f : TeamCounts → TeamCounts) :
    Counts :=
  if team = some 100 then { counts with c100 := f counts.c100 }
  else if team = some 200 then { counts with c200 := f counts.c200 }
  else counts

/-- The mutable scan state of compute_features: the counter dict and the four
first-occurrence team markers (0 before latching, else the team id). -/
structure ObjState where
  counts : Counts := {}
  first_blood_team : Int := 0
  first_drake_team : Int := 0
  first_tower_team : Int := 0
  first_herald_team : Int := 0
deriving Repr, DecidableEq

/-- The CHAMPION_KILL branch of the event scan in compute_features. -/
def champion_kill_step (pid2team : PidMap) (st : ObjState) (ev : Event) (ts : Int) :
    ObjState :=
  let killer_team := team_from_pid ev.killerId pid2team
  let victim_team := team_from_pid ev.victimId pid2team
  let assists := ev.assistingParticipantIds
  let fb :=
    if st.first_blood_team = 0 ∧ (killer_team = some 100 ∨ killer_team = some 200) then
      killer_team.getD 0
    else st.first_blood_team
  let c1 :=
    if ts ≤ CUT10 then
      let c := update_counts st.counts killer_team (fun t => { t with k10 := t.k10 + 1 })
      let c := update_counts c victim_team (fun t => { t with d10 := t.d10 + 1 })
      assists.foldl
        (fun c ap =>
          update_counts c (team_from_pid (some ap) pid2team)
            (fun t => { t with a10 := t.a10 + 1 })) c
    else st.counts
  let c2 := update_counts c1 killer_team (fun t => { t with k15 := t.k15 + 1 })
  let c2 := update_counts c2 victim_team (fun t => { t with d15 := t.d15 + 1 })
  let c2 :=
    assists.foldl
      (fun c ap =>
        update_counts c (team_from_pid (some ap) pid2team)
          (fun t => { t with a15 := t.a15 + 1 })) c2
  { st with counts := c2, first_blood_team := fb }

/-- The TURRET_PLATE_DESTROYED branch of the event scan in compute_features. -/
def plate_step (pid2team : PidMap) (st : ObjState) (ev : Event) (ts : Int) : ObjState :=
  if ts ≤ CUT14 then
    let killer_team := team_from_pid ev.killerId pid2team
    { st with
      counts := update_counts st.counts killer_team
        (fun t => { t with plates14 := t.plates14 + 1 }) }
  else st

/-- The BUILDING_KILL branch of the event scan in compute_features, with the
killerTeamId fallback when the participant lookup does not resolve. -/
def building_step (pid2team : PidMap) (st : ObjState) (ev : Event) : ObjState :=
  if ev.buildingType = some "TOWER_BUILDING" then
    let kt0 := team_from_pid ev.killerId pid2team
    let killer_team :=
      if kt0 = some 100 ∨ kt0 = some 200 then kt0
      else if ev.killerTeamId = some 100 ∨ ev.killerTeamId = some 200 then ev.killerTeamId
      else kt0
    let ft :=
      if st.first_tower_team = 0 ∧ (killer_team = some 100 ∨ killer_team = some 200) then
        killer_team.getD 0
      else st.first_tower_team
    { st with
      counts := update_counts st.counts killer_team
        (fun t => { t with towers15 := t.towers15 + 1 }),
      first_tower_team := ft }
  else st

/-- The ELITE_MONSTER_KILL branch of the event scan in compute_features, with
the same killerTeamId fallback and the DRAGON / RIFTHERALD split. -/
def monster_step (pid2team : PidMap) (st : ObjState) (ev : Event) : ObjState :=
  let kt0 := team_from_pid ev.killerId pid2team
  let killer_team :=
    if kt0 = some 100 ∨ kt0 = some 200 then kt0
    else if ev.killerTeamId = some 100 ∨ ev.killerTeamId = some 200 then ev.killerTeamId
    else kt0
  if ev.monsterType = some "DRAGON" then
    let fd :=
      if st.first_drake_team = 0 ∧ (killer_team = some 100 ∨ killer_team = some 200) then
        killer_team.getD 0
      else st.first_drake_team
    { st with
      counts := update_counts st.counts killer_team
        (fun t => { t with drakes15 := t.drakes15 + 1 }),
      first_drake_team := fd }
  else if ev.monsterType = some "RIFTHERALD" then
    let fh :=
      if st.first_herald_team = 0 ∧ (killer_team = some 100 ∨ killer_team = some 200) then
        killer_team.getD 0
      else st.first_herald_team
    { st with
      counts := update_counts st.counts killer_team
        (fun t => { t with herald15 := t.herald15 + 1 }),
      first_herald_team := fh }
  else st

/-- One iteration of the inner event loop of compute_features: events with no
timestamp or with a timestamp beyond CUT15 are skipped, the rest dispatch on
the event type, in the order of the Python elif chain. -/
def objEventStep (pid2team : PidMap) (st : ObjState) (ev : Event) : ObjState :=
  match ev.timestamp with
  | none => st
  | some ts =>
    if ts > CUT15 then st
    else if ev.type = some "CHAMPION_KILL" then champion_kill_step pid2team st ev ts
    else if ev.type = some "TURRET_PLATE_DESTROYED" then plate_step pid2team st ev ts
    else if ev.type = some "BUILDING_KILL" then building_step pid2team st ev
    else if ev.type = some "ELITE_MONSTER_KILL" then monster_step pid2team st ev
    else st

/-- The full event scan of compute_features over all frames. -/
def objScan (pid2team : PidMap) (frames : List Frame) : ObjState :=
  frames.foldl (fun st fr => fr.events.foldl (objEventStep pid2team) st) {}

/-- first-objective encoding of compute_features: 1 for team 100, -1 for
team 200, 0 otherwise. -/
def first_enc (team : Int) : Int :=
  if team = 100 then 1 else if team = 200 then -1 else 0

/-- The output row of compute_features (the match id aside). -/
structure ObjRow where
  diff_k10 : Int
  diff_d10 : Int
  diff_a10 : Int
  diff_k15 : Int
  diff_d15 : Int
  diff_a15 : Int
  diff_plates14 : Int
  diff_towers15 : Int
  diff_drakes15 : Int
  diff_herald15 : Int
  first_blood : Int
  first_drake : Int
  first_tower : Int
  first_herald : Int
deriving Repr, DecidableEq

/-- compute_features of augment_objectives.py: scan all events, then emit the
team-100 minus team-200 differences and the encoded first-occurrence marks. -/
def compute_features (pid2team : PidMap) (frames : List Frame) : ObjRow :=
  let st := objScan pid2team frames
  { diff_k10 := st.counts.c100.k10 - st.counts.c200.k10
    diff_d10 := st.counts.c100.d10 - st.counts.c200.d10
    diff_a10 := st.counts.c100.a10 - st.counts.c200.a10
    diff_k15 := st.counts.c100.k15 - st.counts.c200.k15
    diff_d15 := st.counts.c100.d15 - st.counts.c200.d15
    diff_a15 := st.counts.c100.a15 - st.counts.c200.a15
    diff_plates14 := st.counts.c100.plates14 - st.counts.c200.plates14
    diff_towers15 := st.counts.c100.towers15 - st.counts.c200.towers15
    diff_drakes15 := st.counts.c100.drakes15 - st.counts.c200.drakes15
    diff_herald15 := st.counts.c100.herald15 - st.counts.c200.herald15
    first_blood := first_enc st.first_blood_team
    first_drake := first_enc st.first_drake_team
    first_tower := first_enc st.first_tower_team
    first_herald := first_enc st.first_herald_team }

/-- The per-team ward counter dict of count_wards (augment_more.py). -/
structure WardCounts where
  wp10 : Int := 0
  wk10 : Int := 0
  cwp10 : Int := 0
  wp15 : Int := 0
  wk15 : Int := 0
  cwp15 : Int := 0
deriving Repr, DecidableEq

/-- The two-slot ward counter dict c of count_wards. -/
structure WardState where
  w100 : WardCounts := {}
  w200 : WardCounts := {}
deriving Repr, DecidableEq

/-- Apply a ward counter update to the slot of a team id known to be 100 or
200 (the direct dict indexing of count_wards after its team guard). -/
def wardApply (c : WardState) (tid : Int) (f : WardCounts → WardCounts) : WardState :=
  if tid = 100 then { c with w100 := f c.w100 } else { c with w200 := f c.w200 }

/-- One iteration of the event loop of count_wards (augment_more.py): events
with no timestamp or beyond CUT15 are skipped; WARD_PLACED counts placements
(and control-ward placements) and WARD_KILL counts ward kills, each at the
10-minute horizon when the timestamp allows and always at the 15-minute one;
an unresolvable or foreign team id skips the event. -/
def wardEventStep (pid2team : PidMap) (c : WardState) (ev : Event) : WardState :=
  match ev.timestamp with
  | none => c
  | some ts =>
    if ts > CUT15 then c
    else if ev.type = some "WARD_PLACED" then
      match team_from_pid ev.creatorId pid2team with
      | none => c
      | some tid =>
        if tid = 100 ∨ tid = 200 then
          let ward_type := ev.wardType.getD ""
          let c :=
            if ts ≤ CUT10 then
              let c := wardApply c tid (fun w => { w with wp10 := w.wp10 + 1 })
              if ward_type = "CONTROL_WARD" then
                wardApply c tid (fun w => { w with cwp10 := w.cwp10 + 1 })
              else c
            else c
          let c := wardApply c tid (fun w => { w with wp15 := w.wp15 + 1 })
          if ward_type = "CONTROL_WARD" then
            wardApply c tid (fun w => { w with cwp15 := w.cwp15 + 1 })
          else c
        else c
    else if ev.type = some "WARD_KILL" then
      match team_from_pid ev.killerId pid2team with
      | none => c
      | some tid =>
        if tid = 100 ∨ tid = 200 then
          let c := if ts ≤ CUT10 then wardApply c tid (fun w => { w with wk10 := w.wk10 + 1 }) else c
          wardApply c tid (fun w => { w with wk15 := w.wk15 + 1 })
        else c
    else c

/-- The output row of count_wards: six team-100 minus team-200 differences. -/
structure WardRow where
  diff_wardsPlaced10 : Int
  diff_wardsKilled10 : Int
  diff_ctrlWardsPlaced10 : Int
  diff_wardsPlaced15 : Int
  diff_wardsKilled15 : Int
  diff_ctrlWardsPlaced15 : Int
deriving Repr, DecidableEq

/-- count_wards of augment_more.py. -/
def count_wards (pid2team : PidMap) (frames : List Frame) : WardRow :=
  let c := frames.foldl (fun c fr => fr.events.foldl (wardEventStep pid2team) c) {}
  { diff_wardsPlaced10 := c.w100.wp10 - c.w200.wp10
    diff_wardsKilled10 := c.w100.wk10 - c.w200.wk10
    diff_ctrlWardsPlaced10 := c.w100.cwp10 - c.w200.cwp10
    diff_wardsPlaced15 := c.w100.wp15 - c.w200.wp15
    diff_wardsKilled15 := c.w100.wk15 - c.w200.wk15
    diff_ctrlWardsPlaced15 := c.w100.cwp15 - c.w200.cwp15 }

/-- The scanning loop of pick_frame (augment_more.py): best holds the last
frame seen with a timestamp at or below the cutoff; a frame with no timestamp
is skipped; the first frame past the cutoff breaks the loop. -/
def pick_loop (frames : List Frame) (cut_ms : Int) (best : Option Frame) : Option Frame :=
  match frames with
  | [] => best
  | fr :: rest =>
    match fr.timestamp with
    | none => pick_loop rest cut_ms best
    | some ts => if ts ≤ cut_ms then pick_loop rest cut_ms (some fr) else best

/-- pick_frame of augment_more.py: the loop result when it found a frame,
otherwise the first frame of a non-empty list, otherwise nothing. -/
def pick_frame (frames : List Frame) (cut_ms : Int) : Option Frame :=
  match pick_loop frames cut_ms none with
  | some fr => some fr
  | none => frames.head?

/-- One team slot of the totals dict of sum_team_from_frame. -/
structure TeamTotals where
  gold : Int := 0
  xp : Int := 0
  cs : Int := 0
  lvl : Int := 0
deriving Repr, DecidableEq

/-- The two-slot totals dict of sum_team_from_frame. -/
structure Totals where
  t100 : TeamTotals := {}
  t200 : TeamTotals := {}
deriving Repr, DecidableEq

/-- One iteration of the participant-frame loop of sum_team_from_frame: a
participant id resolving to neither team is skipped, otherwise gold, xp,
creep score and level (missing fields read as 0) are added to the totals of
its team. -/
def sum_team_step (pid2team : PidMap) (tot : Totals) (p : Int × PFrame) : Totals :=
  match pid2team p.1 with
  | none => tot
  | some tid =>
    if tid = 100 ∨ tid = 200 then
      let gold := p.2.totalGold.getD 0
      let xpv := p.2.xp.getD 0
      let lvl := p.2.level.getD 0
      let cs := p.2.minionsKilled.getD 0 + p.2.jungleMinionsKilled.getD 0
      let add : TeamTotals → TeamTotals := fun t =>
        { gold := t.gold + gold, xp := t.xp + xpv, cs := t.cs + cs, lvl := t.lvl + lvl }
      if tid = 100 then { tot with t100 := add tot.t100 } else { tot with t200 := add tot.t200 }
    else tot

/-- sum_team_from_frame of augment_more.py: over the participantFrames of the
given frame (an absent frame contributes an empty dict), accumulate the team
totals of every participant resolving to team 100 or 200. -/
def sum_team_from_frame (frame : Option Frame) (pid2team : PidMap) : Totals :=
  let pf := match frame with
    | some f => f.participantFrames
    | none => []
  pf.foldl (sum_team_step pid2team) {}

/-- The windowed-economy delta columns of the augment_more.py main loop. -/
structure MoreDeltas where
  delta_m8_gold : Int
  delta_m8_xp : Int
  delta_m8_cs : Int
  delta_m8_lvl : Int
  delta_m12_gold : Int
  delta_m12_xp : Int
  delta_m12_cs : Int
  delta_m12_lvl : Int
deriving Repr, DecidableEq

/-- The per-match delta computation of the augment_more.py main loop: pick
the frames for the 8 and 12 minute cutoffs, sum each team from them and emit
the team-100 minus team-200 differences unconditionally. -/
def more_deltas (pid2team : PidMap) (frames : List Frame) : MoreDeltas :=
  let fr8 := pick_frame frames CUT8
  let fr12 := pick_frame frames CUT12
  let t8 := sum_team_from_frame fr8 pid2team
  let t12 := sum_team_from_frame fr12 pid2team
  { delta_m8_gold := t8.t100.gold - t8.t200.gold
    delta_m8_xp := t8.t100.xp - t8.t200.xp
    delta_m8_cs := t8.t100.cs - t8.t200.cs
    delta_m8_lvl := t8.t100.lvl - t8.t200.lvl
    delta_m12_gold := t12.t100.gold - t12.t200.gold
    delta_m12_xp := t12.t100.xp - t12.t200.xp
    delta_m12_cs := t12.t100.cs - t12.t200.cs
    delta_m12_lvl := t12.t100.lvl - t12.t200.lvl }

/-- get_frame of build_dataset.py: an empty frame list or an out-of-range
minute index yields no frame, otherwise the frame at index minute. -/
def get_frame (frames : List Frame) (minute : Int) : Option Frame :=
  if frames.isEmpty then none
  else if minute < 0 ∨ (frames.length : Int) ≤ minute then none
  else frames.get? minute.toNat

/-- The team snapshot totals of extract_team_snapshot (build_dataset.py). -/
structure TeamSnap where
  totalGold : Int
  xp : Int
  cs : Int
  levelSum : Int
  participants_ok : Int
deriving Repr, DecidableEq

/-- One iteration of the participant loop of extract_team_snapshot: a
participant missing from the frame is skipped; a participant whose gold, xp
or level is missing is skipped; otherwise gold, xp, creep score (missing
minion counts read as 0) and level are added and the ok count incremented. -/
def snapStep (pf : List (Int × PFrame)) (acc : TeamSnap) (pid : Int) : TeamSnap :=
  match List.lookup pid pf with
  | none => acc
  | some x =>
    match x.totalGold, x.xp, x.level with
    | some g, some xpv, some lvl =>
      { totalGold := acc.totalGold + g
        xp := acc.xp + xpv
        cs := acc.cs + (x.minionsKilled.getD 0 + x.jungleMinionsKilled.getD 0)
        levelSum := acc.levelSum + lvl
        participants_ok := acc.participants_ok + 1 }
    | _, _, _ => acc

/-- extract_team_snapshot of build_dataset.py: no frame or an ok count of
zero yields no snapshot (an empty dict in the source), never a zero row. -/
def extract_team_snapshot (frames : List Frame) (minute : Int)
    (team_participant_ids : List Int) : Option TeamSnap :=
  match get_frame frames minute with
  | none => none
  | some frame =>
    let r := team_participant_ids.foldl (snapStep frame.participantFrames)
      { totalGold := 0, xp := 0, cs := 0, levelSum := 0, participants_ok := 0 }
    if r.participants_ok = 0 then none else some r

/-- The between-team delta logic of the build_dataset.py main loop: the field
is read from each team's snapshot dict (absent snapshot gives a missing
value) and the difference is emitted only when both values are present. -/
def team_delta (s100 s200 : Option TeamSnap) (f : TeamSnap → Int) : Option Int :=
  match s100.map f, s200.map f with
  | some a, some b => some (a - b)
  | _, _ => none

/-- The pandas left merge used by the main functions of both augment scripts
(base.merge(feat, left-on key, right-on key, how left)): every base row is
kept in order; a base row pairs with each feature row sharing its key, and
with a missing feature payload when no feature row matches. -/
def left_join {α β : Type} (base : List (String × α)) (feat : List (String × β)) :
    List (String × α × Option β) :=
  base.flatMap fun r =>
    match feat.filter (fun f => f.1 == r.1) with
    | [] => [(r.1, r.2, none)]
    | ms => ms.map fun f => (r.1, r.2, some f.2)

/-- Whether a frame has a timestamp at or below the cutoff. -/
def frame_qual (cut_ms : Int) (fr : Frame) : Bool :=
  match fr.timestamp with
  | some ts => decide (ts ≤ cut_ms)
  | none => false

/-- Spec-side: the latest frame in list order whose timestamp is at or below
the cutoff, stated independently of the scanning loop. -/
def latest_frame_le (frames : List Frame) (cut_ms : Int) : Option Frame :=
  (frames.filter (frame_qual cut_ms)).getLast?

/-- Whether a participant id contributes to an extract_team_snapshot total:
present in the frame with gold, xp and level all present. -/
def aggregable (pf : List (Int × PFrame)) (pid : Int) : Bool :=
  match List.lookup pid pf with
  | none => false
  | some x => x.totalGold.isSome && x.xp.isSome && x.level.isSome

/-- The number of participant ids of the list that contribute to an
extract_team_snapshot total. -/
def ok_count (pf : List (Int × PFrame)) (pids : List Int) : Int :=
  ((pids.filter (aggregable pf)).length : Int)

/-- The creep score a participant id would contribute (missing minion counts
read as 0, an absent participant reading 0). -/
def cs_of (pf : List (Int × PFrame)) (pid : Int) : Int :=
  match List.lookup pid pf with
  | none => 0
  | some x => x.minionsKilled.getD 0 + x.jungleMinionsKilled.getD 0

/-- The gold a participant id would contribute. -/
def gold_of (pf : List (Int × PFrame)) (pid : Int) : Int :=
  match List.lookup pid pf with
  | none => 0
  | some x => x.totalGold.getD 0

/-- The xp a participant id would contribute. -/
def xp_of (pf : List (Int × PFrame)) (pid : Int) : Int :=
  match List.lookup pid pf with
  | none => 0
  | some x => x.xp.getD 0

/-- The level a participant id would contribute. -/
def level_of (pf : List (Int × PFrame)) (pid : Int) : Int :=
  match List.lookup pid pf with
  | none => 0
  | some x => x.level.getD 0

/-- Sum over the contributing (aggregable) participant ids of the creep
scores: the quantity the snapshot cs total actually equals. -/
def cs_ok_sum (pf : List (Int × PFrame)) (pids : List Int) : Int :=
  ((pids.filter (aggregable pf)).map (cs_of pf)).sum

/-- Spec-side: sum of the creep scores over the participant ids present in
the frame, the quantity the spec sentence describes. -/
def cs_present_sum (pf : List (Int × PFrame)) (pids : List Int) : Int :=
  ((pids.filter (fun pid => (List.lookup pid pf).isSome)).map (cs_of pf)).sum

/-- The number of assist ids of the list resolving to the given team. -/
def assist_team_count (pid2team : PidMap) (assists : List Int) (t : Int) : Int :=
  ((assists.filter fun ap => team_from_pid (some ap) pid2team == some t).length : Int)

/-- The counter slot of a team id known to be 100 or 200. -/
def teamSlot (c : Counts) (t : Int) : TeamCounts :=
  if t = 100 then c.c100 else c.c200

/-- Whether the event scan keeps an event: no timestamp, or at most CUT15. -/
def keep_event (ev : Event) : Bool :=
  match ev.timestamp with
  | none => true
  | some ts => decide (ts ≤ CUT15)

/-- Remove from every frame the events with a timestamp beyond CUT15. -/
def drop_late_events (frames : List Frame) : List Frame :=
  frames.map fun fr => { fr with events := fr.events.filter keep_event }

lemma update_counts_some100 (c : Counts) (f : TeamCounts → TeamCounts) :
    update_counts c (some 100) f = { c with c100 := f c.c100 } := by
  simp [update_counts]

lemma update_counts_some200 (c : Counts) (f : TeamCounts → TeamCounts) :
    update_counts c (some 200) f = { c with c200 := f c.c200 } := by
  norm_num [update_counts]

lemma update_counts_other (c : Counts) (f : TeamCounts → TeamCounts) (team : Option Int)
    (h1 : team ≠ some 100) (h2 : team ≠ some 200) :
    update_counts c team f = c := by
  simp [update_counts, h1, h2]

lemma assist_team_count_nil (p2t : PidMap) (t : Int) :
    assist_team_count p2t [] t = 0 := rfl

lemma assist_team_count_cons (p2t : PidMap) (ap : Int) (l : List Int) (t : Int) :
    assist_team_count p2t (ap :: l) t =
      (if team_from_pid (some ap) p2t = some t then 1 else 0) + assist_team_count p2t l t := by
  by_cases h : team_from_pid (some ap) p2t = some t
  · simp [assist_team_count, List.filter_cons, h]
    omega
  · simp [assist_team_count, List.filter_cons, h]

lemma assist_foldl_a10 (p2t : PidMap) (assists : List Int) :
    ∀ c : Counts,
      assists.foldl
        (fun c ap =>
          update_counts c (team_from_pid (some ap) p2t)
            (fun t => { t with a10 := t.a10 + 1 })) c =
      { c100 := { c.c100 with a10 := c.c100.a10 + assist_team_count p2t assists 100 }
        c200 := { c.c200 with a10 := c.c200.a10 + assist_team_count p2t assists 200 } } := by
  induction assists with
  | nil => intro c; simp [assist_team_count_nil]
  | cons ap l ih =>
    intro c
    rw [List.foldl_cons, ih]
    rw [assist_team_count_cons, assist_team_count_cons]
    by_cases h1 : team_from_pid (some ap) p2t = some 100
    · rw [h1, update_counts_some100]
      have h2 : ¬ ((100 : Int) = 200) := by norm_num
      simp only [Counts.mk.injEq, TeamCounts.mk.injEq, h1]
      norm_num
      omega
    · by_cases h2 : team_from_pid (some ap) p2t = some 200
      · rw [h2, update_counts_some200]
        simp only [Counts.mk.injEq, TeamCounts.mk.injEq, h2]
        norm_num
        omega
      · rw [update_counts_other _ _ _ h1 h2]
        simp only [Counts.mk.injEq, TeamCounts.mk.injEq, h1, h2]
        norm_num

lemma assist_foldl_a15 (p2t : PidMap) (assists : List Int) :
    ∀ c : Counts,
      assists.foldl
        (fun c ap =>
          update_counts c (team_from_pid (some ap) p2t)
            (fun t => { t with a15 := t.a15 + 1 })) c =
      { c100 := { c.c100 with a15 := c.c100.a15 + assist_team_count p2t assists 100 }
        c200 := { c.c200 with a15 := c.c200.a15 + assist_team_count p2t assists 200 } } := by
  induction assists with
  | nil => intro c; simp [assist_team_count_nil]
  | cons ap l ih =>
    intro c
    rw [List.foldl_cons, ih]
    rw [assist_team_count_cons, assist_team_count_cons]
    by_cases h1 : team_from_pid (some ap) p2t = some 100
    · rw [h1, update_counts_some100]
      simp only [Counts.mk.injEq, TeamCounts.mk.injEq, h1]
      norm_num
      omega
    · by_cases h2 : team_from_pid (some ap) p2t = some 200
      · rw [h2, update_counts_some200]
        simp only [Counts.mk.injEq, TeamCounts.mk.injEq, h2]
        norm_num
        omega
      · rw [update_counts_other _ _ _ h1 h2]
        simp only [Counts.mk.injEq, TeamCounts.mk.injEq, h1, h2]
        norm_num

lemma foldl_filter_of_id {σ α : Type} (step : σ → α → σ) (p : α → Bool)
    (hid : ∀ s a, p a = false → step s a = s) :
    ∀ (l : List α) (s : σ), (l.filter p).foldl step s = l.foldl step s := by
  intro l
  induction l with
  | nil => intro s; rfl
  | cons a t ih =>
    intro s
    cases hpa : p a with
    | false =>
      simp only [List.filter_cons, hpa, cond_false, List.foldl_cons]
      rw [hid s a hpa]
      exact ih s
    | true =>
      simp only [List.filter_cons, hpa, cond_true, List.foldl_cons]
      exact ih (step s a)

lemma keep_event_false {ev : Event} (h : keep_event ev = false) :
    ∃ ts, ev.timestamp = some ts ∧ CUT15 < ts := by
  unfold keep_event at h
  cases hts : ev.timestamp with
  | none => rw [hts] at h; cases h
  | some ts =>
    rw [hts] at h
    simp only [decide_eq_false_iff_not, not_le] at h
    exact ⟨ts, rfl, h⟩

lemma objEventStep_late (p2t : PidMap) (st : ObjState) (ev : Event)
    (ts : Int) (hts : ev.timestamp = some ts) (h : CUT15 < ts) :
    objEventStep p2t st ev = st := by
  unfold objEventStep
  rw [hts]
  simp [gt_iff_lt, h]

lemma objEventStep_not_keep (p2t : PidMap) (st : ObjState) (ev : Event)
    (h : keep_event ev = false) : objEventStep p2t st ev = st := by
  obtain ⟨ts, hts, hlt⟩ := keep_event_false h
  exact objEventStep_late p2t st ev ts hts hlt

lemma wardEventStep_late (p2t : PidMap) (c : WardState) (ev : Event)
    (ts : Int) (hts : ev.timestamp = some ts) (h : CUT15 < ts) :
    wardEventStep p2t c ev = c := by
  unfold wardEventStep
  rw [hts]
  simp [gt_iff_lt, h]

lemma wardEventStep_not_keep (p2t : PidMap) (c : WardState) (ev : Event)
    (h : keep_event ev = false) : wardEventStep p2t c ev = c := by
  obtain ⟨ts, hts, hlt⟩ := keep_event_false h
  exact wardEventStep_late p2t c ev ts hts hlt

lemma scan_drop_late {σ : Type} (step : σ → Event → σ)
    (hid : ∀ (s : σ) (ev : Event), keep_event ev = false → step s ev = s) :
    ∀ (frames : List Frame) (s : σ),
      (drop_late_events frames).foldl (fun s fr => fr.events.foldl step s) s =
      frames.foldl (fun s fr => fr.events.foldl step s) s := by
  intro frames
  induction frames with
  | nil => intro s; rfl
  | cons fr t ih =>
    intro s
    unfold drop_late_events
    rw [List.map_cons, List.foldl_cons, List.foldl_cons]
    have h1 : ({ fr with events := fr.events.filter keep_event } : Frame).events.foldl step s
        = fr.events.foldl step s := foldl_filter_of_id step keep_event hid fr.events s
    rw [h1]
    exact ih (fr.events.foldl step s)

lemma objScan_drop_late (p2t : PidMap) (frames : List Frame) :
    objScan p2t (drop_late_events frames) = objScan p2t frames :=
  scan_drop_late (objEventStep p2t) (fun s ev h => objEventStep_not_keep p2t s ev h) frames {}

lemma champion_kill_step_first_blood (p2t : PidMap) (st : ObjState) (ev : Event) (ts : Int)
    (h : st.first_blood_team ≠ 0) :
    (champion_kill_step p2t st ev ts).first_blood_team = st.first_blood_team := by
  simp [champion_kill_step, h]

lemma plate_step_markers (p2t : PidMap) (st : ObjState) (ev : Event) (ts : Int) :
    (plate_step p2t st ev ts).first_blood_team = st.first_blood_team ∧
    (plate_step p2t st ev ts).first_drake_team = st.first_drake_team ∧
    (plate_step p2t st ev ts).first_tower_team = st.first_tower_team ∧
    (plate_step p2t st ev ts).first_herald_team = st.first_herald_team := by
  unfold plate_step
  split <;> simp

lemma building_step_first_tower (p2t : PidMap) (st : ObjState) (ev : Event)
    (h : st.first_tower_team ≠ 0) :
    (building_step p2t st ev).first_tower_team = st.first_tower_team := by
  unfold building_step
  split_ifs <;> simp_all

lemma building_step_other_markers (p2t : PidMap) (st : ObjState) (ev : Event) :
    (building_step p2t st ev).first_blood_team = st.first_blood_team ∧
    (building_step p2t st ev).first_drake_team = st.first_drake_team ∧
    (building_step p2t st ev).first_herald_team = st.first_herald_team := by
  unfold building_step
  split_ifs <;> simp_all

lemma monster_step_first_drake (p2t : PidMap) (st : ObjState) (ev : Event)
    (h : st.first_drake_team ≠ 0) :
    (monster_step p2t st ev).first_drake_team = st.first_drake_team := by
  unfold monster_step
  split_ifs <;> simp_all

lemma monster_step_first_herald (p2t : PidMap) (st : ObjState) (ev : Event)
    (h : st.first_herald_team ≠ 0) :
    (monster_step p2t st ev).first_herald_team = st.first_herald_team := by
  unfold monster_step
  split_ifs <;> simp_all

lemma monster_step_other_markers (p2t : PidMap) (st : ObjState) (ev : Event) :
    (monster_step p2t st ev).first_blood_team = st.first_blood_team ∧
    (monster_step p2t st ev).first_tower_team = st.first_tower_team := by
  unfold monster_step
  split_ifs <;> simp_all

lemma objEventStep_first_blood (p2t : PidMap) (st : ObjState) (ev : Event)
    (h : st.first_blood_team ≠ 0) :
    (objEventStep p2t st ev).first_blood_team = st.first_blood_team := by
  cases hts : ev.timestamp with
  | none => simp only [objEventStep, hts]
  | some ts =>
    simp only [objEventStep, hts]
    split_ifs with h15 h1 h2 h3 h4
    · rfl
    · exact champion_kill_step_first_blood p2t st ev ts h
    · exact (plate_step_markers p2t st ev ts).1
    · exact (building_step_other_markers p2t st ev).1
    · exact (monster_step_other_markers p2t st ev).1
    · rfl

lemma objEventStep_first_drake (p2t : PidMap) (st : ObjState) (ev : Event)
    (h : st.first_drake_team ≠ 0) :
    (objEventStep p2t st ev).first_drake_team = st.first_drake_team := by
  cases hts : ev.timestamp with
  | none => simp only [objEventStep, hts]
  | some ts =>
    simp only [objEventStep, hts]
    split_ifs with h15 h1 h2 h3 h4
    · rfl
    · rfl
    · exact (plate_step_markers p2t st ev ts).2.1
    · exact (building_step_other_markers p2t st ev).2.1
    · exact monster_step_first_drake p2t st ev h
    · rfl

lemma objEventStep_first_tower (p2t : PidMap) (st : ObjState) (ev : Event)
    (h : st.first_tower_team ≠ 0) :
    (objEventStep p2t st ev).first_tower_team = st.first_tower_team := by
  cases hts : ev.timestamp with
  | none => simp only [objEventStep, hts]
  | some ts =>
    simp only [objEventStep, hts]
    split_ifs with h15 h1 h2 h3 h4
    · rfl
    · rfl
    · exact (plate_step_markers p2t st ev ts).2.2.1
    · exact building_step_first_tower p2t st ev h
    · exact (monster_step_other_markers p2t st ev).2
    · rfl

lemma objEventStep_first_herald (p2t : PidMap) (st : ObjState) (ev : Event)
    (h : st.first_herald_team ≠ 0) :
    (objEventStep p2t st ev).first_herald_team = st.first_herald_team := by
  cases hts : ev.timestamp with
  | none => simp only [objEventStep, hts]
  | some ts =>
    simp only [objEventStep, hts]
    split_ifs with h15 h1 h2 h3 h4
    · rfl
    · rfl
    · exact (plate_step_markers p2t st ev ts).2.2.2
    · exact (building_step_other_markers p2t st ev).2.2
    · exact monster_step_first_herald p2t st ev h
    · rfl

lemma foldl_objEventStep_first_blood (p2t : PidMap) :
    ∀ (evs : List Event) (st : ObjState), st.first_blood_team ≠ 0 →
      (evs.foldl (objEventStep p2t) st).first_blood_team = st.first_blood_team := by
  intro evs
  induction evs with
  | nil => intro st _; rfl
  | cons ev t ih =>
    intro st h
    rw [List.foldl_cons]
    have hs := objEventStep_first_blood p2t st ev h
    rw [ih (objEventStep p2t st ev) (by rw [hs]; exact h), hs]

lemma foldl_objEventStep_first_drake (p2t : PidMap) :
    ∀ (evs : List Event) (st : ObjState), st.first_drake_team ≠ 0 →
      (evs.foldl (objEventStep p2t) st).first_drake_team = st.first_drake_team := by
  intro evs
  induction evs with
  | nil => intro st _; rfl
  | cons ev t ih =>
    intro st h
    rw [List.foldl_cons]
    have hs := objEventStep_first_drake p2t st ev h
    rw [ih (objEventStep p2t st ev) (by rw [hs]; exact h), hs]

lemma foldl_objEventStep_first_tower (p2t : PidMap) :
    ∀ (evs : List Event) (st : ObjState), st.first_tower_team ≠ 0 →
      (evs.foldl (objEventStep p2t) st).first_tower_team = st.first_tower_team := by
  intro evs
  induction evs with
  | nil => intro st _; rfl
  | cons ev t ih =>
    intro st h
    rw [List.foldl_cons]
    have hs := objEventStep_first_tower p2t st ev h
    rw [ih (objEventStep p2t st ev) (by rw [hs]; exact h), hs]

lemma foldl_objEventStep_first_herald (p2t : PidMap) :
    ∀ (evs : List Event) (st : ObjState), st.first_herald_team ≠ 0 →
      (evs.foldl (objEventStep p2t) st).first_herald_team = st.first_herald_team := by
  intro evs
  induction evs with
  | nil => intro st _; rfl
  | cons ev t ih =>
    intro st h
    rw [List.foldl_cons]
    have hs := objEventStep_first_herald p2t st ev h
    rw [ih (objEventStep p2t st ev) (by rw [hs]; exact h), hs]

lemma count_wards_drop_late (p2t : PidMap) (frames : List Frame) :
    count_wards p2t (drop_late_events frames) = count_wards p2t frames := by
  unfold count_wards
  rw [scan_drop_late (wardEventStep p2t) (fun s ev h => wardEventStep_not_keep p2t s ev h)]

lemma compute_features_drop_late (p2t : PidMap) (frames : List Frame) :
    compute_features p2t (drop_late_events frames) = compute_features p2t frames := by
  unfold compute_features
  rw [objScan_drop_late]

lemma getLast?_cons_or {α : Type} :
    ∀ (l : List α) (a : α), (a :: l).getLast? = l.getLast?.or (some a) := by
  intro l
  induction l with
  | nil => intro a; simp
  | cons b t ih =>
    intro a
    rw [List.getLast?_cons_cons, ih b]
    cases t.getLast? <;> simp

lemma pick_loop_spec (cut : Int) :
    ∀ (frames : List Frame) (best : Option Frame),
      (∀ fr ∈ frames, (fr.timestamp).isSome) →
      frames.Pairwise (fun a b => ∀ x y, a.timestamp = some x → b.timestamp = some y → x ≤ y) →
      pick_loop frames cut best = ((frames.filter (frame_qual cut)).getLast?).or best := by
  intro frames
  induction frames with
  | nil => intro best _ _; simp [pick_loop]
  | cons fr rest ih =>
    intro best hsome hpw
    obtain ⟨ts, hts⟩ := Option.isSome_iff_exists.mp (hsome fr (List.mem_cons_self fr rest))
    rw [List.pairwise_cons] at hpw
    by_cases hle : ts ≤ cut
    · have hq : frame_qual cut fr = true := by simp [frame_qual, hts, hle]
      rw [List.filter_cons_of_pos hq, getLast?_cons_or]
      simp only [pick_loop, hts]
      rw [if_pos hle,
        ih (some fr) (fun f hf => hsome f (List.mem_cons_of_mem _ hf)) hpw.2,
        Option.or_assoc, Option.or_some]
    · have hq : frame_qual cut fr = false := by simp [frame_qual, hts, hle]
      rw [List.filter_cons_of_neg (by simp [hq])]
      have hrest : rest.filter (frame_qual cut) = [] := by
        rw [List.filter_eq_nil_iff]
        intro f hf
        obtain ⟨ts2, hts2⟩ := Option.isSome_iff_exists.mp (hsome f (List.mem_cons_of_mem _ hf))
        have hmono := hpw.1 f hf ts ts2 hts hts2
        simp only [frame_qual, hts2, decide_eq_true_eq]
        omega
      rw [hrest]
      simp only [pick_loop, hts]
      rw [if_neg hle]
      simp

lemma snap_foldl (pf : List (Int × PFrame)) :
    ∀ (pids : List Int) (acc : TeamSnap),
      pids.foldl (snapStep pf) acc =
      { totalGold := acc.totalGold + ((pids.filter (aggregable pf)).map (gold_of pf)).sum
        xp := acc.xp + ((pids.filter (aggregable pf)).map (xp_of pf)).sum
        cs := acc.cs + cs_ok_sum pf pids
        levelSum := acc.levelSum + ((pids.filter (aggregable pf)).map (level_of pf)).sum
        participants_ok := acc.participants_ok + ok_count pf pids } := by
  intro pids
  induction pids with
  | nil =>
    intro acc
    simp [cs_ok_sum, ok_count]
  | cons pid l ih =>
    intro acc
    rw [List.foldl_cons, ih]
    cases hag : aggregable pf pid with
    | false =>
      have hstep : snapStep pf acc pid = acc := by
        unfold aggregable at hag
        unfold snapStep
        cases hl : List.lookup pid pf with
        | none => rfl
        | some x =>
          rw [hl] at hag
          cases hg : x.totalGold <;> cases hx : x.xp <;> cases hlv : x.level <;> simp_all
      rw [hstep]
      simp [cs_ok_sum, ok_count, List.filter_cons, hag]
    | true =>
      unfold aggregable at hag
      cases hl : List.lookup pid pf with
      | none => rw [hl] at hag; cases hag
      | some x =>
        rw [hl] at hag
        simp only [Bool.and_eq_true] at hag
        obtain ⟨⟨hg1, hx1⟩, hl1⟩ := hag
        obtain ⟨g, hg⟩ := Option.isSome_iff_exists.mp hg1
        obtain ⟨xpv, hx⟩ := Option.isSome_iff_exists.mp hx1
        obtain ⟨lvl, hlv⟩ := Option.isSome_iff_exists.mp hl1
        have hstep : snapStep pf acc pid =
            { totalGold := acc.totalGold + g
              xp := acc.xp + xpv
              cs := acc.cs + (x.minionsKilled.getD 0 + x.jungleMinionsKilled.getD 0)
              levelSum := acc.levelSum + lvl
              participants_ok := acc.participants_ok + 1 } := by
          simp only [snapStep, hl, hg, hx, hlv]
        rw [hstep]
        have hq : aggregable pf pid = true := by simp [aggregable, hl, hg, hx, hlv]
        have hgold : gold_of pf pid = g := by simp [gold_of, hl, hg]
        have hxp : xp_of pf pid = xpv := by simp [xp_of, hl, hx]
        have hlev : level_of pf pid = lvl := by simp [level_of, hl, hlv]
        have hcs : cs_of pf pid = x.minionsKilled.getD 0 + x.jungleMinionsKilled.getD 0 := by
          simp [cs_of, hl]
        simp [cs_ok_sum, ok_count, List.filter_cons, hq, hgold, hxp, hlev, hcs,
          TeamSnap.mk.injEq]
        omega

lemma extract_none_of_out_of_range (frames : List Frame) (minute : Int) (pids : List Int)
    (h : minute < 0 ∨ (frames.length : Int) ≤ minute) :
    extract_team_snapshot frames minute pids = none := by
  have hg : get_frame frames minute = none := by
    unfold get_frame
    by_cases he : frames.isEmpty <;> simp [he, h]
  unfold extract_team_snapshot
  rw [hg]

lemma extract_none_of_ok0 (frames : List Frame) (minute : Int) (pids : List Int)
    (frame : Frame) (hg : get_frame frames minute = some frame)
    (h : ok_count frame.participantFrames pids = 0) :
    extract_team_snapshot frames minute pids = none := by
  unfold extract_team_snapshot
  simp only [hg]
  rw [snap_foldl]
  simp [h]

lemma extract_some_fields (frames : List Frame) (minute : Int) (pids : List Int)
    (frame : Frame) (snap : TeamSnap) (hg : get_frame frames minute = some frame)
    (hsnap : extract_team_snapshot frames minute pids = some snap) :
    snap.cs = cs_ok_sum frame.participantFrames pids ∧
    snap.participants_ok = ok_count frame.participantFrames pids := by
  unfold extract_team_snapshot at hsnap
  simp only [hg] at hsnap
  rw [snap_foldl] at hsnap
  by_cases h0 : (0 : Int) + ok_count frame.participantFrames pids = 0
  · rw [if_pos (by simpa using h0)] at hsnap
    cases hsnap
  · rw [if_neg (by simpa using h0)] at hsnap
    obtain rfl := Option.some.inj hsnap
    constructor <;> simp

lemma filter_key_eq_find_toList {β : Type} :
    ∀ (feat : List (String × β)), (feat.map Prod.fst).Nodup → ∀ (k : String),
      feat.filter (fun f => f.1 == k) = (feat.find? (fun f => f.1 == k)).toList := by
  intro feat
  induction feat with
  | nil => intro _ k; rfl
  | cons f t ih =>
    intro hnd k
    rw [List.map_cons, List.nodup_cons] at hnd
    by_cases hk : f.1 = k
    · rw [List.filter_cons_of_pos (by simp [hk]), List.find?_cons_of_pos _ (by simp [hk])]
      have ht : t.filter (fun g => g.1 == k) = [] := by
        rw [List.filter_eq_nil_iff]
        intro g hg
        simp only [beq_iff_eq]
        intro hgk
        exact hnd.1 (by
          rw [hk, ← hgk]
          exact List.mem_map_of_mem Prod.fst hg)
      rw [ht]
      rfl
    · rw [List.filter_cons_of_neg (by simp [hk]), List.find?_cons_of_neg _ (by simp [hk])]
      exact ih hnd.2 k

lemma left_join_eq_map {α β : Type} (base : List (String × α)) (feat : List (String × β))
    (hnd : (feat.map Prod.fst).Nodup) :
    left_join base feat =
      base.map (fun r => (r.1, r.2, (feat.find? (fun f => f.1 == r.1)).map Prod.snd)) := by
  unfold left_join
  induction base with
  | nil => rfl
  | cons r t ih =>
    rw [List.flatMap_cons, List.map_cons, filter_key_eq_find_toList feat hnd r.1, ih]
    cases hf : feat.find? (fun f => f.1 == r.1) <;> simp

lemma sum_team_step_id (p2t : PidMap) (tot : Totals) (p : Int × PFrame)
    (h1 : p2t p.1 ≠ some 100) (h2 : p2t p.1 ≠ some 200) :
    sum_team_step p2t tot p = tot := by
  unfold sum_team_step
  cases hp : p2t p.1 with
  | none => rfl
  | some tid =>
    rw [hp] at h1 h2
    have ht1 : tid ≠ 100 := fun h => h1 (by rw [h])
    have ht2 : tid ≠ 200 := fun h => h2 (by rw [h])
    simp [ht1, ht2]

lemma sum_team_foldl_id (p2t : PidMap) :
    ∀ (l : List (Int × PFrame)) (tot : Totals),
      (∀ p ∈ l, p2t p.1 ≠ some 100 ∧ p2t p.1 ≠ some 200) →
      l.foldl (sum_team_step p2t) tot = tot := by
  intro l
  induction l with
  | nil => intro tot _; rfl
  | cons p t ih =>
    intro tot h
    rw [List.foldl_cons,
      sum_team_step_id p2t tot p (h p (List.mem_cons_self p t)).1 (h p (List.mem_cons_self p t)).2]
    exact ih tot (fun q hq => h q (List.mem_cons_of_mem _ hq))

lemma objEventStep_champion (p2t : PidMap) (st : ObjState) (ev : Event) (ts : Int)
    (htype : ev.type = some "CHAMPION_KILL") (hts : ev.timestamp = some ts)
    (h15 : ts ≤ CUT15) :
    objEventStep p2t st ev = champion_kill_step p2t st ev ts := by
  simp only [objEventStep, hts]
  rw [if_neg (not_lt.mpr h15), if_pos htype]

lemma objEventStep_plate (p2t : PidMap) (st : ObjState) (ev : Event) (ts : Int)
    (htype : ev.type = some "TURRET_PLATE_DESTROYED") (hts : ev.timestamp = some ts)
    (h15 : ts ≤ CUT15) :
    objEventStep p2t st ev = plate_step p2t st ev ts := by
  simp only [objEventStep, hts]
  rw [if_neg (not_lt.mpr h15), if_neg (by rw [htype]; decide), if_pos htype]

lemma get_frame_in_range (frames : List Frame) (minute : Int)
    (h0 : 0 ≤ minute) (hlt : minute < (frames.length : Int)) :
    get_frame frames minute = frames.get? minute.toNat := by
  unfold get_frame
  have hne : frames.isEmpty = false := by
    cases frames with
    | nil => simp at hlt; omega
    | cons a t => rfl
  rw [if_neg (by simp [hne]), if_neg (by push_neg; exact ⟨h0, hlt⟩)]

lemma team_delta_isSome (s100 s200 : Option TeamSnap) (f : TeamSnap → Int) :
    (team_delta s100 s200 f).isSome ↔ s100.isSome ∧ s200.isSome := by
  cases s100 <;> cases s200 <;> simp [team_delta]

lemma team_delta_none (s100 s200 : Option TeamSnap) (f : TeamSnap → Int)
    (h : s100 = none ∨ s200 = none) : team_delta s100 s200 f = none := by
  cases h with
  | inl h1 => cases s200 <;> simp [team_delta, h1]
  | inr h2 => cases s100 <;> simp [team_delta, h2]

lemma team_delta_some (a b : TeamSnap) (f : TeamSnap → Int) :
    team_delta (some a) (some b) f = some (f a - f b) := rfl

/-- Participants 1 to 5 on team 100, 6 to 10 on team 200, the canonical map
of a 5/5 match. -/
def ex_p2t : PidMap := fun pid =>
  if pid < 1 then none
  else if pid ≤ 5 then some 100
  else if pid ≤ 10 then some 200
  else none

/-- A champion kill at 5 minutes, killer participant 1, victim participant 6,
no assists. -/
def ex_kill_event : Event :=
  { timestamp := some 300000, type := some "CHAMPION_KILL",
    killerId := some 1, victimId := some 6 }

/-- A one-frame timeline whose only event is the 5-minute champion kill. -/
def ex1_frames : List Frame := [{ timestamp := some 0, events := [ex_kill_event] }]

/-- A champion kill past the 15-minute cutoff. -/
def ex_late_event : Event :=
  { timestamp := some 1000000, type := some "CHAMPION_KILL",
    killerId := some 1, victimId := some 6 }

/-- A state in which all four first-occurrence markers have latched. -/
def ex_marked_state : ObjState :=
  { first_blood_team := 100, first_drake_team := 200,
    first_tower_team := 100, first_herald_team := 200 }

/-- A timeline of eight empty frames (indices 0 to 7). -/
def eight_frames : List Frame := List.replicate 8 {}

/-- C2: for every event whose timestamp exceeds 15 minutes (900000 ms),
processing that event leaves the whole objective-aggregator state and the
whole ward-counter state unchanged (hence every per-team counter of both);
equivalently, removing all such events from the timeline does not change the
output row of compute_features or of count_wards. -/
theorem claim_C2 :
    (∀ (p2t : PidMap) (st : ObjState) (ev : Event) (ts : Int),
        ev.timestamp = some ts → CUT15 < ts → objEventStep p2t st ev = st) ∧
    (∀ (p2t : PidMap) (c : WardState) (ev : Event) (ts : Int),
        ev.timestamp = some ts → CUT15 < ts → wardEventStep p2t c ev = c) ∧
    (∀ (p2t : PidMap) (frames : List Frame),
        compute_features p2t (drop_late_events frames) = compute_features p2t frames) ∧
    (∀ (p2t : PidMap) (frames : List Frame),
        count_wards p2t (drop_late_events frames) = count_wards p2t frames) :=
  ⟨fun p2t st ev ts hts h => objEventStep_late p2t st ev ts hts h,
   fun p2t c ev ts hts h => wardEventStep_late p2t c ev ts hts h,
   compute_features_drop_late,
   count_wards_drop_late⟩

/-- Witness for C2 at a concrete late event (16 minutes 40 seconds). -/
theorem claim_C2_witness :
    objEventStep ex_p2t {} ex_late_event = {} ∧
    wardEventStep ex_p2t {} ex_late_event = {} :=
  ⟨claim_C2.1 ex_p2t {} ex_late_event 1000000 rfl (by decide),
   claim_C2.2.1 ex_p2t {} ex_late_event 1000000 rfl (by decide)⟩

/-- C3: each of the four first-occurrence markers is write-once within a
scan, at the single-event level and over any remaining event list, and the
markers are emitted ternary-encoded: 1 for team 100, -1 for team 200, 0
otherwise. -/
theorem claim_C3 :
    (∀ (p2t : PidMap) (st : ObjState) (ev : Event),
      (st.first_blood_team ≠ 0 →
        (objEventStep p2t st ev).first_blood_team = st.first_blood_team) ∧
      (st.first_drake_team ≠ 0 →
        (objEventStep p2t st ev).first_drake_team = st.first_drake_team) ∧
      (st.first_tower_team ≠ 0 →
        (objEventStep p2t st ev).first_tower_team = st.first_tower_team) ∧
      (st.first_herald_team ≠ 0 →
        (objEventStep p2t st ev).first_herald_team = st.first_herald_team)) ∧
    (∀ (p2t : PidMap) (evs : List Event) (st : ObjState),
      (st.first_blood_team ≠ 0 →
        (evs.foldl (objEventStep p2t) st).first_blood_team = st.first_blood_team) ∧
      (st.first_drake_team ≠ 0 →
        (evs.foldl (objEventStep p2t) st).first_drake_team = st.first_drake_team) ∧
      (st.first_tower_team ≠ 0 →
        (evs.foldl (objEventStep p2t) st).first_tower_team = st.first_tower_team) ∧
      (st.first_herald_team ≠ 0 →
        (evs.foldl (objEventStep p2t) st).first_herald_team = st.first_herald_team)) ∧
    first_enc 100 = 1 ∧ first_enc 200 = -1 ∧ first_enc 0 = 0 ∧
    (∀ t : Int, t ≠ 100 → t ≠ 200 → first_enc t = 0) :=
  ⟨fun p2t st ev =>
    ⟨objEventStep_first_blood p2t st ev, objEventStep_first_drake p2t st ev,
     objEventStep_first_tower p2t st ev, objEventStep_first_herald p2t st ev⟩,
   fun p2t evs st =>
    ⟨foldl_objEventStep_first_blood p2t evs st, foldl_objEventStep_first_drake p2t evs st,
     foldl_objEventStep_first_tower p2t evs st, foldl_objEventStep_first_herald p2t evs st⟩,
   by decide, by decide, by decide,
   fun t h1 h2 => by simp [first_enc, h1, h2]⟩

/-- Witness for C3 at a concrete latched state and concrete events. -/
theorem claim_C3_witness :
    (objEventStep ex_p2t ex_marked_state ex_kill_event).first_blood_team =
      ex_marked_state.first_blood_team ∧
    (([ex_kill_event].foldl (objEventStep ex_p2t) ex_marked_state)).first_drake_team =
      ex_marked_state.first_drake_team ∧
    first_enc 42 = 0 :=
  ⟨(claim_C3.1 ex_p2t ex_marked_state ex_kill_event).1 (by decide),
   (claim_C3.2.1 ex_p2t [ex_kill_event] ex_marked_state).2.1 (by decide),
   claim_C3.2.2.2.2.2 42 (by decide) (by decide)⟩

/-- C4: the team snapshot extractor resolves the frame whose index equals the
requested minute; an out-of-range minute or a frame in which zero
participants aggregate yields no snapshot (never a zero-filled row); in
particular minute 10 against a timeline of eight frames yields no
snapshot. -/
theorem claim_C4 :
    (∀ (frames : List Frame) (minute : Int),
        0 ≤ minute → minute < (frames.length : Int) →
        get_frame frames minute = frames.get? minute.toNat) ∧
    (∀ (frames : List Frame) (minute : Int) (pids : List Int),
        minute < 0 ∨ (frames.length : Int) ≤ minute →
        extract_team_snapshot frames minute pids = none) ∧
    (∀ (frames : List Frame) (minute : Int) (pids : List Int) (frame : Frame),
        get_frame frames minute = some frame →
        ok_count frame.participantFrames pids = 0 →
        extract_team_snapshot frames minute pids = none) ∧
    extract_team_snapshot eight_frames 10 [1, 2, 3, 4, 5] = none :=
  ⟨get_frame_in_range, extract_none_of_out_of_range, extract_none_of_ok0, by decide⟩

/-- Witness for C4 at concrete inputs. -/
theorem claim_C4_witness :
    get_frame eight_frames 3 = eight_frames.get? (3 : Int).toNat ∧
    extract_team_snapshot eight_frames (-1) [1] = none ∧
    extract_team_snapshot eight_frames 0 [1] = none :=
  ⟨claim_C4.1 eight_frames 3 (by decide) (by decide),
   claim_C4.2.1 eight_frames (-1) [1] (Or.inl (by decide)),
   claim_C4.2.2.1 eight_frames 0 [1] {} (by decide) (by decide)⟩

/-- C5: a between-team delta column (gold or xp) is emitted exactly when both
team snapshots of that minute exist; when either is absent the delta is
missing, never zero, and when both exist it is the team-100 minus team-200
difference. -/
theorem claim_C5 :
    ∀ (frames : List Frame) (minute : Int) (t100 t200 : List Int),
      ((team_delta (extract_team_snapshot frames minute t100)
          (extract_team_snapshot frames minute t200) TeamSnap.totalGold).isSome ↔
        (extract_team_snapshot frames minute t100).isSome ∧
        (extract_team_snapshot frames minute t200).isSome) ∧
      ((team_delta (extract_team_snapshot frames minute t100)
          (extract_team_snapshot frames minute t200) TeamSnap.xp).isSome ↔
        (extract_team_snapshot frames minute t100).isSome ∧
        (extract_team_snapshot frames minute t200).isSome) ∧
      (extract_team_snapshot frames minute t100 = none ∨
       extract_team_snapshot frames minute t200 = none →
        team_delta (extract_team_snapshot frames minute t100)
          (extract_team_snapshot frames minute t200) TeamSnap.totalGold = none ∧
        team_delta (extract_team_snapshot frames minute t100)
          (extract_team_snapshot frames minute t200) TeamSnap.xp = none) ∧
      (∀ a b, extract_team_snapshot frames minute t100 = some a →
        extract_team_snapshot frames minute t200 = some b →
        team_delta (extract_team_snapshot frames minute t100)
          (extract_team_snapshot frames minute t200) TeamSnap.totalGold =
          some (a.totalGold - b.totalGold) ∧
        team_delta (extract_team_snapshot frames minute t100)
          (extract_team_snapshot frames minute t200) TeamSnap.xp =
          some (a.xp - b.xp)) :=
  fun frames minute t100 t200 =>
    ⟨team_delta_isSome _ _ _,
     team_delta_isSome _ _ _,
     fun h => ⟨team_delta_none _ _ _ h, team_delta_none _ _ _ h⟩,
     fun a b ha hb => by rw [ha, hb]; exact ⟨rfl, rfl⟩⟩

/-- Witness for C5: minute 10 of the eight-frame timeline has no snapshots,
so the deltas are missing. -/
theorem claim_C5_witness :
    team_delta (extract_team_snapshot eight_frames 10 [1])
      (extract_team_snapshot eight_frames 10 [6]) TeamSnap.totalGold = none ∧
    team_delta (extract_team_snapshot eight_frames 10 [1])
      (extract_team_snapshot eight_frames 10 [6]) TeamSnap.xp = none :=
  (claim_C5 eight_frames 10 [1] [6]).2.2.1 (Or.inl (by decide))

/-- A participant-frame dict for the C6 analysis: participant 1 fully
populated with creep score 0, participant 2 present in the frame but with a
missing totalGold and creep score 3, participants 3 to 5 absent. -/
def cx_pf : List (Int × PFrame) :=
  [(1, { totalGold := some 100, xp := some 50, level := some 3,
         minionsKilled := some 0, jungleMinionsKilled := some 0 }),
   (2, { totalGold := none, xp := some 40, level := some 2,
         minionsKilled := some 3, jungleMinionsKilled := some 0 })]

/-- The frame holding cx_pf. -/
def cx_frame : Frame := { timestamp := some 0, participantFrames := cx_pf }

/-- A one-frame timeline holding cx_frame. -/
def cx_frames : List Frame := [cx_frame]

/-- The participant ids of team 100 in the C6 scenario (ids 6 to 10 form
team 200 and are not queried). -/
def cx_pids : List Int := [1, 2, 3, 4, 5]

/-- Counterexample to C6 as stated: participant 2 is present in the queried
frame with creep score 3, but its totalGold is missing, so the extractor
skips it entirely; the emitted creep-score total is 0 while the sum over the
participants present in the frame is 3. -/
theorem claim_C6_counterexample :
    (extract_team_snapshot cx_frames 0 cx_pids).map TeamSnap.cs = some 0 ∧
    cs_present_sum cx_frame.participantFrames cx_pids = 3 ∧
    ¬ (extract_team_snapshot cx_frames 0 cx_pids).map TeamSnap.cs =
        some (cs_present_sum cx_frame.participantFrames cx_pids) := by
  refine ⟨by decide, by decide, by decide⟩

/-- C6 amended: whenever the extractor emits a snapshot, its creep-score
total equals the sum of (minionsKilled + jungleMinionsKilled) over exactly
those queried participants that are present in the resolved frame AND have
totalGold, xp and level all present (missing minion counts read as 0). -/
theorem claim_C6_amended :
    ∀ (frames : List Frame) (minute : Int) (pids : List Int) (frame : Frame)
      (snap : TeamSnap),
      get_frame frames minute = some frame →
      extract_team_snapshot frames minute pids = some snap →
      snap.cs = cs_ok_sum frame.participantFrames pids :=
  fun frames minute pids frame snap hg hs =>
    (extract_some_fields frames minute pids frame snap hg hs).1

/-- Witness for the amended C6 at the concrete scenario. -/
theorem claim_C6_amended_witness :
    (⟨100, 50, 0, 3, 1⟩ : TeamSnap).cs = cs_ok_sum cx_frame.participantFrames cx_pids :=
  claim_C6_amended cx_frames 0 cx_pids cx_frame ⟨100, 50, 0, 3, 1⟩ (by decide) (by decide)

/-- Two frames with increasing timestamps for the C7 witness. -/
def ex7f1 : Frame := { timestamp := some 100 }

/-- Second frame of the C7 witness list. -/
def ex7f2 : Frame := { timestamp := some 200 }

/-- The C7 witness frame list. -/
def ex7_frames : List Frame := [ex7f1, ex7f2]

/-- C7: on a non-empty frame list with present, non-decreasing timestamps,
pick_frame returns the latest frame whose timestamp does not exceed the
cutoff, and falls back to the first frame when no frame qualifies. -/
theorem claim_C7 :
    ∀ (frames : List Frame) (cut_ms : Int),
      frames ≠ [] →
      (∀ fr ∈ frames, (fr.timestamp).isSome) →
      frames.Pairwise (fun a b => ∀ x y, a.timestamp = some x → b.timestamp = some y → x ≤ y) →
      pick_frame frames cut_ms = (latest_frame_le frames cut_ms).or frames.head? ∧
      (∀ fr, latest_frame_le frames cut_ms = some fr → pick_frame frames cut_ms = some fr) ∧
      (latest_frame_le frames cut_ms = none →
        ∃ fr0, frames.head? = some fr0 ∧ pick_frame frames cut_ms = some fr0) := by
  intro frames cut_ms hne hsome hpw
  have hmain : pick_frame frames cut_ms = (latest_frame_le frames cut_ms).or frames.head? := by
    unfold pick_frame
    rw [pick_loop_spec cut_ms frames none hsome hpw, Option.or_none]
    unfold latest_frame_le
    cases (frames.filter (frame_qual cut_ms)).getLast? <;> simp
  refine ⟨hmain, ?_, ?_⟩
  · intro fr hfr
    rw [hmain, hfr, Option.or_some]
  · intro hnone
    cases frames with
    | nil => exact absurd rfl hne
    | cons a t =>
      refine ⟨a, rfl, ?_⟩
      rw [hmain, hnone, Option.none_or]
      rfl

/-- Witness for C7 at the two-frame list and cutoff 150. -/
theorem claim_C7_witness :
    pick_frame ex7_frames 150 = (latest_frame_le ex7_frames 150).or ex7_frames.head? :=
  (claim_C7 ex7_frames 150 (by decide) (by decide)
    (by
      refine List.Pairwise.cons ?_ (List.pairwise_singleton _ _)
      intro b hb x y hx hy
      rw [List.mem_singleton] at hb
      subst hb
      simp only [ex7f1] at hx
      simp only [ex7f2] at hy
      cases hx
      cases hy
      omega)).1

/-- The base table of the C8 witness. -/
def w8_base : List (String × Int) := [("a", 1), ("b", 2)]

/-- The feature table of the C8 witness; key b is unmatched. -/
def w8_feat : List (String × Int) := [("a", 10)]

/-- C8: when the per-match feature table has pairwise distinct keys, the left
join equals a per-row map over the base table; hence the output has exactly
the base row count, the base key and payload sequence in order, and a base
row whose key matches no feature row carries a missing feature payload. -/
theorem claim_C8 :
    ∀ {α β : Type} (base : List (String × α)) (feat : List (String × β)),
      (feat.map Prod.fst).Nodup →
      left_join base feat =
        base.map (fun r => (r.1, r.2, (feat.find? (fun f => f.1 == r.1)).map Prod.snd)) ∧
      (left_join base feat).length = base.length ∧
      (left_join base feat).map (fun r => (r.1, r.2.1)) = base ∧
      (∀ (i : Nat) (r : String × α), base.get? i = some r →
        (∀ f ∈ feat, f.1 ≠ r.1) →
        (left_join base feat).get? i = some (r.1, r.2, none)) := by
  intro α β base feat hnd
  have h := left_join_eq_map base feat hnd
  refine ⟨h, ?_, ?_, ?_⟩
  · rw [h, List.length_map]
  · rw [h, List.map_map]
    have hcomp :
        ((fun r : String × α × Option β => (r.1, r.2.1)) ∘
          (fun r : String × α =>
            (r.1, r.2, (feat.find? (fun f => f.1 == r.1)).map Prod.snd))) = id := by
      funext r
      rfl
    rw [hcomp, List.map_id]
  · intro i r hir hnone
    have hf : feat.find? (fun f => f.1 == r.1) = none :=
      List.find?_eq_none.mpr (fun x hx => by
        simp only [beq_iff_eq]
        exact hnone x hx)
    rw [h, List.get?_map, hir]
    simp [hf]

/-- Witness for C8 at a concrete two-row base and one-row feature table. -/
theorem claim_C8_witness :
    left_join w8_base w8_feat =
      w8_base.map (fun r => (r.1, r.2, (w8_feat.find? (fun f => f.1 == r.1)).map Prod.snd)) ∧
    (left_join w8_base w8_feat).length = w8_base.length :=
  ⟨(claim_C8 w8_base w8_feat (by decide)).1,
   (claim_C8 w8_base w8_feat (by decide)).2.1⟩

/-- A turret plate destroyed one second past the 14-minute cutoff
(14:00:01 = 841000 ms), destroyer participant 1 (team 100). -/
def ex_plate_event : Event :=
  { timestamp := some 841000, type := some "TURRET_PLATE_DESTROYED", killerId := some 1 }

/-- A one-frame timeline whose only event is the late plate. -/
def ex9_frames : List Frame := [{ timestamp := some 0, events := [ex_plate_event] }]

/-- A turret plate destroyed well inside the 14-minute window. -/
def w9_event : Event :=
  { timestamp := some 100000, type := some "TURRET_PLATE_DESTROYED", killerId := some 1 }

/-- C9: a TURRET_PLATE_DESTROYED event increments the destroyer team's plate
counter exactly when its timestamp is at most 14 minutes (840000 ms); a
plate one second past the cutoff (14:00:01) leaves diff_plates14 at 0. -/
theorem claim_C9 :
    (∀ (p2t : PidMap) (st : ObjState) (ev : Event) (ts kt : Int),
        ev.type = some "TURRET_PLATE_DESTROYED" → ev.timestamp = some ts →
        team_from_pid ev.killerId p2t = some kt → (kt = 100 ∨ kt = 200) →
        (ts ≤ CUT14 →
          (teamSlot (objEventStep p2t st ev).counts kt).plates14 =
            (teamSlot st.counts kt).plates14 + 1) ∧
        (CUT14 < ts →
          (objEventStep p2t st ev).counts.c100.plates14 = st.counts.c100.plates14 ∧
          (objEventStep p2t st ev).counts.c200.plates14 = st.counts.c200.plates14)) ∧
    (compute_features ex_p2t ex9_frames).diff_plates14 = 0 := by
  constructor
  · intro p2t st ev ts kt htype hts hK hkt
    constructor
    · intro h14
      have h15 : ts ≤ CUT15 := by
        have hc : CUT14 ≤ CUT15 := by decide
        omega
      rw [objEventStep_plate p2t st ev ts htype hts h15]
      unfold plate_step
      rw [if_pos h14, hK]
      rcases hkt with rfl | rfl
      · norm_num [update_counts_some100, teamSlot]
      · norm_num [update_counts_some200, teamSlot]
    · intro h14
      by_cases h15 : ts ≤ CUT15
      · rw [objEventStep_plate p2t st ev ts htype hts h15]
        unfold plate_step
        rw [if_neg (not_le.mpr h14)]
        exact ⟨rfl, rfl⟩
      · rw [objEventStep_late p2t st ev ts hts (not_le.mp h15)]
        exact ⟨rfl, rfl⟩
  · decide

/-- Witness for C9: an in-window plate increments the team-100 counter, and
the 14:00:01 plate changes neither counter. -/
theorem claim_C9_witness :
    (teamSlot (objEventStep ex_p2t {} w9_event).counts 100).plates14 =
      (teamSlot ({} : ObjState).counts 100).plates14 + 1 ∧
    (objEventStep ex_p2t {} ex_plate_event).counts.c100.plates14 =
      ({} : ObjState).counts.c100.plates14 :=
  ⟨(claim_C9.1 ex_p2t {} w9_event 100000 100 rfl rfl (by decide) (Or.inl rfl)).1 (by decide),
   ((claim_C9.1 ex_p2t {} ex_plate_event 841000 100 rfl rfl (by decide)
      (Or.inl rfl)).2 (by decide)).1⟩

/-- The all-zero windowed-economy delta row. -/
def more_zero : MoreDeltas :=
  { delta_m8_gold := 0, delta_m8_xp := 0, delta_m8_cs := 0, delta_m8_lvl := 0
    delta_m12_gold := 0, delta_m12_xp := 0, delta_m12_cs := 0, delta_m12_lvl := 0 }

/-- A participant map resolving nothing. -/
def w10_p2t : PidMap := fun _ => none

/-- C10: the windowed-economy extractor zero-fills: with no frames at all, or
with no participant-frame entry of the selected frames resolving to team 100
or 200, every minute-8 and minute-12 delta column is emitted with value 0
(the row always carries the delta columns, unlike the snapshot stage). -/
theorem claim_C10 :
    (∀ p2t : PidMap, more_deltas p2t [] = more_zero) ∧
    (∀ (p2t : PidMap) (frames : List Frame),
      (∀ fr : Frame, (pick_frame frames CUT8 = some fr ∨ pick_frame frames CUT12 = some fr) →
        ∀ p ∈ fr.participantFrames, p2t p.1 ≠ some 100 ∧ p2t p.1 ≠ some 200) →
      more_deltas p2t frames = more_zero) := by
  constructor
  · intro p2t
    rfl
  · intro p2t frames h
    have h8 : sum_team_from_frame (pick_frame frames CUT8) p2t = {} := by
      cases hp : pick_frame frames CUT8 with
      | none => rfl
      | some fr =>
        show fr.participantFrames.foldl (sum_team_step p2t) {} = {}
        exact sum_team_foldl_id p2t fr.participantFrames {} (fun p hp2 => h fr (Or.inl hp) p hp2)
    have h12 : sum_team_from_frame (pick_frame frames CUT12) p2t = {} := by
      cases hp : pick_frame frames CUT12 with
      | none => rfl
      | some fr =>
        show fr.participantFrames.foldl (sum_team_step p2t) {} = {}
        exact sum_team_foldl_id p2t fr.participantFrames {} (fun p hp2 => h fr (Or.inr hp) p hp2)
    simp only [more_deltas, h8, h12]
    rfl

/-- Witness for C10: a one-frame timeline with an empty participant dict and
a map resolving nothing yields the zero row. -/
theorem claim_C10_witness : more_deltas w10_p2t [{}] = more_zero :=
  claim_C10.2 w10_p2t [{}] (fun fr _ p hp => by simp [w10_p2t])

/-- C1: a CHAMPION_KILL event at or before 10 minutes increments the
10-minute and the 15-minute kill/death/assist counters of the resolved
teams identically, and one after 10 but at or before 15 minutes increments
only the 15-minute counters; the synthetic 5-minute kill example (killer on
team 100, victim on team 200, no assists) yields diff_k15 = 1,
diff_d15 = -1, first_blood = 1, with the 10-minute counters incremented
identically. -/
theorem claim_C1 :
    (∀ (p2t : PidMap) (st : ObjState) (ev : Event) (ts kt vt : Int),
      ev.type = some "CHAMPION_KILL" → ev.timestamp = some ts →
      team_from_pid ev.killerId p2t = some kt →
      team_from_pid ev.victimId p2t = some vt →
      (kt = 100 ∨ kt = 200) → (vt = 100 ∨ vt = 200) →
      (ts ≤ CUT10 →
        (teamSlot (objEventStep p2t st ev).counts kt).k10 =
          (teamSlot st.counts kt).k10 + 1 ∧
        (teamSlot (objEventStep p2t st ev).counts kt).k15 =
          (teamSlot st.counts kt).k15 + 1 ∧
        (teamSlot (objEventStep p2t st ev).counts vt).d10 =
          (teamSlot st.counts vt).d10 + 1 ∧
        (teamSlot (objEventStep p2t st ev).counts vt).d15 =
          (teamSlot st.counts vt).d15 + 1 ∧
        (∀ t : Int, t = 100 ∨ t = 200 →
          (teamSlot (objEventStep p2t st ev).counts t).a10 =
            (teamSlot st.counts t).a10 +
              assist_team_count p2t ev.assistingParticipantIds t ∧
          (teamSlot (objEventStep p2t st ev).counts t).a15 =
            (teamSlot st.counts t).a15 +
              assist_team_count p2t ev.assistingParticipantIds t)) ∧
      (CUT10 < ts → ts ≤ CUT15 →
        (teamSlot (objEventStep p2t st ev).counts kt).k15 =
          (teamSlot st.counts kt).k15 + 1 ∧
        (teamSlot (objEventStep p2t st ev).counts vt).d15 =
          (teamSlot st.counts vt).d15 + 1 ∧
        (∀ t : Int, t = 100 ∨ t = 200 →
          (teamSlot (objEventStep p2t st ev).counts t).k10 =
            (teamSlot st.counts t).k10 ∧
          (teamSlot (objEventStep p2t st ev).counts t).d10 =
            (teamSlot st.counts t).d10 ∧
          (teamSlot (objEventStep p2t st ev).counts t).a10 =
            (teamSlot st.counts t).a10 ∧
          (teamSlot (objEventStep p2t st ev).counts t).a15 =
            (teamSlot st.counts t).a15 +
              assist_team_count p2t ev.assistingParticipantIds t))) ∧
    ((compute_features ex_p2t ex1_frames).diff_k15 = 1 ∧
     (compute_features ex_p2t ex1_frames).diff_d15 = -1 ∧
     (compute_features ex_p2t ex1_frames).first_blood = 1 ∧
     (compute_features ex_p2t ex1_frames).diff_k10 = 1 ∧
     (compute_features ex_p2t ex1_frames).diff_d10 = -1 ∧
     (compute_features ex_p2t ex1_frames).diff_k10 =
       (compute_features ex_p2t ex1_frames).diff_k15 ∧
     (compute_features ex_p2t ex1_frames).diff_d10 =
       (compute_features ex_p2t ex1_frames).diff_d15 ∧
     (compute_features ex_p2t ex1_frames).diff_a10 =
       (compute_features ex_p2t ex1_frames).diff_a15) := by
  constructor
  · intro p2t st ev ts kt vt htype hts hK hV hkt hvt
    constructor
    · intro h10
      have h15 : ts ≤ CUT15 := by
        have hc : CUT10 ≤ CUT15 := by decide
        omega
      rw [objEventStep_champion p2t st ev ts htype hts h15]
      rcases hkt with rfl | rfl <;> rcases hvt with rfl | rfl <;>
        (simp only [champion_kill_step, hK, hV, if_pos h10, assist_foldl_a10, assist_foldl_a15,
           update_counts_some100, update_counts_some200];
         refine ⟨?_, ?_, ?_, ?_, ?_⟩ <;>
           (try intro t ht) <;> (try rcases ht with rfl | rfl) <;>
           norm_num [teamSlot])
    · intro h10 h15
      rw [objEventStep_champion p2t st ev ts htype hts h15]
      rcases hkt with rfl | rfl <;> rcases hvt with rfl | rfl <;>
        (simp only [champion_kill_step, hK, hV, if_neg (not_le.mpr h10), assist_foldl_a10,
           assist_foldl_a15, update_counts_some100, update_counts_some200];
         refine ⟨?_, ?_, ?_⟩ <;>
           (try intro t ht) <;> (try rcases ht with rfl | rfl) <;>
           norm_num [teamSlot])
  · decide

/-- Witness for C1: the general part applied to the concrete 5-minute kill
of the example timeline. -/
theorem claim_C1_witness :
    (teamSlot (objEventStep ex_p2t {} ex_kill_event).counts 100).k10 =
      (teamSlot ({} : ObjState).counts 100).k10 + 1 ∧
    (teamSlot (objEventStep ex_p2t {} ex_kill_event).counts 200).d15 =
      (teamSlot ({} : ObjState).counts 200).d15 + 1 :=
  ⟨((claim_C1.1 ex_p2t {} ex_kill_event 300000 100 200 rfl rfl (by decide) (by decide)
      (Or.inl rfl) (Or.inr rfl)).1 (by decide)).1,
   (((claim_C1.1 ex_p2t {} ex_kill_event 300000 100 200 rfl rfl (by decide) (by decide)
      (Or.inl rfl) (Or.inr rfl)).1 (by decide)).2.2.2).1⟩

end LolQuiz
